import Mathlib

/-!
Verification of the security-risk classification engine of the AWS network
visualizer (`visualizer.py`).  The engine classifies inbound Network ACL
rules into severity tiers, aggregates them per subnet
(`_calculate_subnet_security_score`) and per VPC
(`_generate_vpc_security_summary`).  Rules are Python dicts; required
fields (`action`, `protocol`, `cidr`, `rule_number`) raise `KeyError` when
absent, while `port_range` is read with `rule.get('port_range', 'All')`.
We model dict fields that the code reads defensively as `Option` and model
`KeyError` propagation with `Except`.
-/

/-- A Network ACL rule as consumed by `_analyze_security_risk` and the
scorer.  `action`, `protocol` and `cidr` are accessed with `rule[...]`
(raising `KeyError` when missing), so they are `Option` here and their
absence surfaces as an `Except.error`.  `port_range` is read with
`rule.get('port_range', 'All')`.  `rule_number` is part of the required
data model (an integer, 32767 reserved). -/
structure Rule where
  rule_number : Int
  action : Option String
  protocol : Option String
  cidr : Option String
  port_range : Option String
deriving Repr, DecidableEq

/-- The risk verdict dict `{'level': ..., 'reason': ...}`. -/
structure Risk where
  level : String
  reason : String
deriving Repr, DecidableEq

/-- The Internet-exposure branch of `_analyze_security_risk` for
`action == allow`, `direction == inbound`, `cidr == "0.0.0.0/0"` (lines
956-1072): the ordered exact-match if/elif chain on `port_range`,
defaulting to `{'level': 'none', 'reason': ''}`. -/
def internetRisk (port_range : String) : Risk :=
  if port_range = "22" then
        ⟨"critical", "CRITICAL: SSH port 22 open to entire Internet! This allows anyone to attempt SSH access. Restrict to specific IPs."⟩
      else if port_range = "3389" then
        ⟨"critical", "CRITICAL: RDP port 3389 open to entire Internet! This allows anyone to attempt remote desktop access. Restrict to specific IPs."⟩
      else if port_range = "3306" then
        ⟨"critical", "CRITICAL: MySQL port 3306 exposed to Internet! Database should not be publicly accessible. Use private subnets."⟩
      else if port_range = "5432" then
        ⟨"critical", "CRITICAL: PostgreSQL port 5432 exposed to Internet! Database should not be publicly accessible. Use private subnets."⟩
      else if port_range = "1521" then
        ⟨"critical", "CRITICAL: Oracle port 1521 exposed to Internet! Database should not be publicly accessible. Use private subnets."⟩
      else if port_range = "27017" then
        ⟨"critical", "CRITICAL: MongoDB port 27017 exposed to Internet! Database should not be publicly accessible. Use private subnets."⟩
      else if port_range = "6379" then
        ⟨"critical", "CRITICAL: Redis port 6379 exposed to Internet! Cache/database should not be publicly accessible. Use private subnets."⟩
      else if port_range = "5984" then
        ⟨"critical", "CRITICAL: CouchDB port 5984 exposed to Internet! Database should not be publicly accessible."⟩
      else if port_range = "9200" ∨ port_range = "9300" then
        ⟨"critical", "CRITICAL: Elasticsearch exposed to Internet! Search engine should not be publicly accessible."⟩
      else if port_range = "0-65535" ∨ port_range = "All" then
        ⟨"critical", "CRITICAL: ALL ports open to Internet! This is extremely permissive and insecure. Restrict to specific required ports."⟩
      else if port_range = "23" then
        ⟨"critical", "CRITICAL: Telnet port 23 open to Internet! Telnet is unencrypted and insecure. Use SSH instead."⟩
      else if port_range = "445" ∨ port_range = "139" then
        ⟨"high", "HIGH: SMB/NetBIOS port exposed to Internet. Common ransomware and malware target. Block immediately."⟩
      else if port_range = "21" then
        ⟨"high", "HIGH: FTP port 21 open to Internet. FTP is unencrypted. Use SFTP/FTPS instead."⟩
      else if port_range = "25" then
        ⟨"high", "HIGH: SMTP port 25 exposed to Internet. Common spam relay vector. Should be restricted."⟩
      else if port_range = "53" then
        ⟨"high", "HIGH: DNS port 53 open to Internet. Can be used for DNS amplification attacks."⟩
      else if port_range = "135" ∨ port_range = "137" ∨ port_range = "138" then
        ⟨"high", "HIGH: Windows RPC/NetBIOS ports exposed. Common attack vector. Block from Internet."⟩
      else if port_range = "8080" ∨ port_range = "8000" then
        ⟨"medium", "MEDIUM: Development/admin port exposed to Internet. Should typically be restricted to internal access."⟩
      else if port_range = "8443" ∨ port_range = "8888" then
        ⟨"medium", "MEDIUM: Alternative HTTPS/admin port exposed. Verify if intentional and restrict if possible."⟩
      else if port_range = "9090" ∨ port_range = "9091" then
        ⟨"medium", "MEDIUM: Management/monitoring port exposed. Should be restricted to authorized networks."⟩
      else if port_range = "5000" then
        ⟨"medium", "MEDIUM: Common development port exposed. Review if public access is required."⟩
      else if port_range = "80" then
        ⟨"low", "Standard HTTP port open. Consider using HTTPS (443) for encrypted traffic."⟩
      else if port_range = "443" then
        ⟨"none", "Standard HTTPS port for web traffic. This is acceptable."⟩
      else
        ⟨"none", ""⟩

/-- The fallback branch of `_analyze_security_risk` for `action == allow`,
`direction == inbound` and a non-Internet source CIDR (lines 1075-1080). -/
def privateFallbackRisk (port_range : String) : Risk :=
  if port_range = "0-65535" ∨ port_range = "All" then
    ⟨"medium", "MEDIUM: All ports open. Consider restricting to specific required ports for better security."⟩
  else
    ⟨"none", ""⟩

/-- Shallow embedding of `_analyze_security_risk(rule, direction)`
(visualizer.py lines 943-1082).  Field accesses `rule['action']`,
`rule['protocol']`, `rule['cidr']` happen in that order; a missing field
raises `KeyError`, modelled as `Except.error`.  Then the verdict is the
ordered if/elif chain of the source (factored here into `internetRisk`
and `privateFallbackRisk`), defaulting to `{'level': 'none', 'reason': ''}`. -/
def analyze_security_risk (rule : Rule) (direction : String) : Except String Risk :=
  match rule.action with
  | none => Except.error "KeyError: action"
  | some action =>
  match rule.protocol with
  | none => Except.error "KeyError: protocol"
  | some _protocol =>
  match rule.cidr with
  | none => Except.error "KeyError: cidr"
  | some cidr =>
  let port_range := rule.port_range.getD "All"
  Except.ok (
    if action = "allow" ∧ direction = "inbound" ∧ cidr = "0.0.0.0/0" then
      internetRisk port_range
    else if action = "allow" ∧ direction = "inbound" then
      privateFallbackRisk port_range
    else
      ⟨"none", ""⟩)

/-- The required fields of a rule (those read with `rule[...]` by
`_analyze_security_risk`) are present. -/
def wfRule (r : Rule) : Bool :=
  r.action.isSome && r.protocol.isSome && r.cidr.isSome

/-- The severity level `_analyze_security_risk(rule, 'inbound')` assigns,
or `"error"` when a required field is missing. -/
def ruleLevel (r : Rule) : String :=
  match analyze_security_risk r "inbound" with
  | Except.ok risk => risk.level
  | Except.error _ => "error"

/-- The rationale string `_analyze_security_risk(rule, 'inbound')`
produces, or `""` when a required field is missing. -/
def ruleReason (r : Rule) : String :=
  match analyze_security_risk r "inbound" with
  | Except.ok risk => risk.reason
  | Except.error _ => ""

/-- The severity table of the spec for inbound allow rules from
`0.0.0.0/0`, transcribed from the spec text (not from the source): used to
compare the source classifier against the claimed fixed table. -/
def specSeverityInternet (pr : String) : String :=
  if pr ∈ ["22", "3389", "3306", "5432", "1521", "27017", "6379", "5984", "9200", "9300", "23", "0-65535", "All"] then "critical"
  else if pr ∈ ["445", "139", "21", "25", "53", "135", "137", "138"] then "high"
  else if pr ∈ ["8080", "8000", "8443", "8888", "9090", "9091", "5000"] then "medium"
  else if pr = "80" then "low"
  else "none"

/-- One entry of the scorer's `risks` buckets:
`{'rule_number': ..., 'reason': ..., 'rule': rule}`. -/
structure RiskItem where
  rule_number : Int
  reason : String
  rule : Rule
deriving Repr, DecidableEq

/-- The four severity buckets of `_calculate_subnet_security_score`. -/
structure Risks where
  critical : List RiskItem
  high : List RiskItem
  medium : List RiskItem
  low : List RiskItem
deriving Repr, DecidableEq

/-- Bucket lookup `risks[level]` (empty for an unknown level). -/
def Risks.get (rs : Risks) (level : String) : List RiskItem :=
  if level = "critical" then rs.critical
  else if level = "high" then rs.high
  else if level = "medium" then rs.medium
  else if level = "low" then rs.low
  else []

/-- The dict returned by `_calculate_subnet_security_score`. -/
structure Score where
  overall : String
  risks : Risks
  total_issues : Nat
deriving Repr, DecidableEq

/-- The per-subnet NACL info dict stored in the map built by
`_build_nacl_map`. -/
structure NaclInfo where
  nacl_id : String
  nacl_name : String
  is_default : Bool
  inbound_rules : List Rule
  outbound_rules : List Rule
deriving Repr, DecidableEq

/-- The scoring loop of `_calculate_subnet_security_score` (lines
1093-1101): for each inbound rule with `rule_number < 32767`, classify it
and append non-`none` verdicts to the bucket named by their level.  A
`KeyError` raised by `_analyze_security_risk` aborts the whole run. -/
def scoreRules : List Rule → Risks → Except String Risks
  | [], acc => Except.ok acc
  | r :: rest, acc =>
    if r.rule_number < 32767 then
      match analyze_security_risk r "inbound" with
      | Except.error e => Except.error e
      | Except.ok risk =>
        let item : RiskItem := ⟨r.rule_number, risk.reason, r⟩
        let acc' :=
          if risk.level = "critical" then { acc with critical := acc.critical ++ [item] }
          else if risk.level = "high" then { acc with high := acc.high ++ [item] }
          else if risk.level = "medium" then { acc with medium := acc.medium ++ [item] }
          else if risk.level = "low" then { acc with low := acc.low ++ [item] }
          else acc
        scoreRules rest acc'
    else scoreRules rest acc

/-- Shallow embedding of `_calculate_subnet_security_score(nacl_info)`
(lines 1084-1119): score the inbound rules, then derive `overall` as the
highest non-empty bucket (else `'secure'`) and `total_issues` as the sum
of the four bucket lengths. -/
def calculate_subnet_security_score (nacl_info : NaclInfo) : Except String Score :=
  match scoreRules nacl_info.inbound_rules ⟨[], [], [], []⟩ with
  | Except.error e => Except.error e
  | Except.ok risks =>
    let overall :=
      if risks.critical.length > 0 then "critical"
      else if risks.high.length > 0 then "high"
      else if risks.medium.length > 0 then "medium"
      else if risks.low.length > 0 then "low"
      else "secure"
    Except.ok ⟨overall, risks,
      risks.critical.length + risks.high.length + risks.medium.length + risks.low.length⟩

/-- A Network ACL object of the input topology, with the fields
`_build_nacl_map` reads.  `nacl['nacl_id']` is a required access; the
rest use `.get` with defaults. -/
structure Nacl where
  nacl_id : String
  name : Option String
  is_default : Option Bool
  associated_subnets : List String
  inbound_rules : List Rule
  outbound_rules : List Rule
deriving Repr

/-- A subnet object, with the fields the security summary reads:
`subnet['subnet_id']` required, `subnet.get('name', 'N/A')`. -/
structure Subnet where
  subnet_id : String
  name : Option String
deriving Repr

/-- The subnet-to-NACL map is a Python dict keyed by subnet id. -/
def NaclMap := String → Option NaclInfo

/-- Shallow embedding of `_build_nacl_map(vpc)` (lines 924-941): for each
NACL and each of its associated subnets, store the NACL info with the
inbound and outbound rule lists truncated to their first 5 entries
(`[:5]`).  Later assignments to the same subnet id overwrite earlier
ones, as in a Python dict. -/
def build_nacl_map (nacls : List Nacl) : NaclMap :=
  nacls.foldl
    (fun m nacl =>
      nacl.associated_subnets.foldl
        (fun m subnet_id =>
          fun k =>
            if k = subnet_id then
              some ⟨nacl.nacl_id, nacl.name.getD "N/A", nacl.is_default.getD false,
                    nacl.inbound_rules.take 5, nacl.outbound_rules.take 5⟩
            else m k)
        m)
    (fun _ => none)

/-- One entry of the VPC-wide `all_risks` buckets in
`_generate_vpc_security_summary`:
`{'subnet_name': ..., 'subnet_id': ..., 'rule_number': ..., 'reason': ...}`. -/
structure VpcRiskItem where
  subnet_name : String
  subnet_id : String
  rule_number : Int
  reason : String
deriving Repr, DecidableEq

/-- The four severity buckets of the VPC-wide summary. -/
structure VRisks where
  critical : List VpcRiskItem
  high : List VpcRiskItem
  medium : List VpcRiskItem
  low : List VpcRiskItem
deriving Repr, DecidableEq

/-- Bucket lookup `all_risks[level]` (empty for an unknown level). -/
def VRisks.get (rs : VRisks) (level : String) : List VpcRiskItem :=
  if level = "critical" then rs.critical
  else if level = "high" then rs.high
  else if level = "medium" then rs.medium
  else if level = "low" then rs.low
  else []

/-- Tagging of a subnet's risk items with the subnet's name and id, as
done when appending into `all_risks` (lines 678-684). -/
def tagItems (subnet_name subnet_id : String) (items : List RiskItem) : List VpcRiskItem :=
  items.map (fun it => ⟨subnet_name, subnet_id, it.rule_number, it.reason⟩)

/-- The subnet loop of `_generate_vpc_security_summary` (lines 672-684):
for each subnet present in the NACL map, compute its security score and
append its tagged risk items into the VPC-wide buckets.  Subnets absent
from the map are skipped. -/
def vpcAllRisks : List Subnet → NaclMap → VRisks → Except String VRisks
  | [], _, acc => Except.ok acc
  | s :: rest, m, acc =>
    match m s.subnet_id with
    | none => vpcAllRisks rest m acc
    | some info =>
      match calculate_subnet_security_score info with
      | Except.error e => Except.error e
      | Except.ok sc =>
        let nm := s.name.getD "N/A"
        let acc' : VRisks :=
          ⟨acc.critical ++ tagItems nm s.subnet_id sc.risks.critical,
           acc.high ++ tagItems nm s.subnet_id sc.risks.high,
           acc.medium ++ tagItems nm s.subnet_id sc.risks.medium,
           acc.low ++ tagItems nm s.subnet_id sc.risks.low⟩
        vpcAllRisks rest m acc'

/-- Shallow embedding of the decision content of
`_generate_vpc_security_summary(vpc, nacl_map)` (lines 663-744): the
aggregated buckets together with the overall severity the summary
reports.  When `total_issues == 0` the source returns the no-issues box,
modelled as severity `"secure"`; otherwise the severity is the highest
non-empty bucket, defaulting to `'low'`. -/
def generate_vpc_security_summary (subnets : List Subnet) (m : NaclMap) :
    Except String (String × VRisks) :=
  match vpcAllRisks subnets m ⟨[], [], [], []⟩ with
  | Except.error e => Except.error e
  | Except.ok all_risks =>
    let total_issues := all_risks.critical.length + all_risks.high.length +
      all_risks.medium.length + all_risks.low.length
    if total_issues = 0 then Except.ok ("secure", all_risks)
    else
      let severity :=
        if all_risks.critical.length > 0 then "critical"
        else if all_risks.high.length > 0 then "high"
        else if all_risks.medium.length > 0 then "medium"
        else "low"
      Except.ok (severity, all_risks)

/-- The inbound rules that `_generate_subnet_card` actually renders
(lines 1306-1313): the binding's (already truncated) inbound rule list,
skipping every rule whose `rule_number` is not `< 32767`. -/
def subnet_card_displayed_inbound (nacl_info : NaclInfo) : List Rule :=
  nacl_info.inbound_rules.filter (fun r => r.rule_number < 32767)

/-- Numeric rank of a severity level under the spec's fixed ordering
critical > high > medium > low > secure/none. -/
def levelRank (level : String) : Nat :=
  if level = "critical" then 4
  else if level = "high" then 3
  else if level = "medium" then 2
  else if level = "low" then 1
  else 0

/-- The bucket the scorer should produce for one severity level,
according to the spec: the rules with a non-reserved rule number whose
inbound classification is exactly that level, in order, as
`{rule_number, reason, rule}` items. -/
def bucketOf (rules : List Rule) (level : String) : List RiskItem :=
  (rules.filter (fun r => decide (r.rule_number < 32767) && decide (ruleLevel r = level))).map
    (fun r => ⟨r.rule_number, ruleReason r, r⟩)

/-- The highest severity rank among four non-empty buckets (generic in
the bucket element types). -/
def rank4 {α β γ δ : Type} (c : List α) (h : List β) (md : List γ) (l : List δ) : Nat :=
  max (if c.isEmpty then 0 else 4)
    (max (if h.isEmpty then 0 else 3)
      (max (if md.isEmpty then 0 else 2) (if l.isEmpty then 0 else 1)))

/-- The overall rank a subnet contributes to its VPC: the rank of its
security score's `overall` when it has a NACL binding and scores without
error, else the rank of `secure`. -/
def subnetOverallRank (m : NaclMap) (s : Subnet) : Nat :=
  match m s.subnet_id with
  | none => 0
  | some info =>
    match calculate_subnet_security_score info with
    | Except.ok sc => levelRank sc.overall
    | Except.error _ => 0

/-- The maximum overall rank across a list of subnets. -/
def maxOverallRank (m : NaclMap) : List Subnet → Nat
  | [] => 0
  | s :: rest => max (subnetOverallRank m s) (maxOverallRank m rest)

/-- The issues one severity bucket of the VPC summary should contain,
according to the spec: for each subnet with a NACL binding, its bucket of
that level, tagged with the subnet's display name and id, concatenated in
subnet order. -/
def vpcBucket (m : NaclMap) (level : String) : List Subnet → List VpcRiskItem
  | [] => []
  | s :: rest =>
    (match m s.subnet_id with
     | none => []
     | some info => tagItems (s.name.getD "N/A") s.subnet_id (bucketOf info.inbound_rules level)) ++
    vpcBucket m level rest


/-- The per-port verdict of the Internet-exposure branch matches the
fixed table of the spec for every `port_range` string: the level agrees
with `specSeverityInternet`, and the rationale is empty exactly on the
unmatched (`none`-level, non-443) ports. -/
theorem internetRisk_matches_table (pr : String) :
    (internetRisk pr).level = specSeverityInternet pr ∧
    ((internetRisk pr).reason = "" ↔ (specSeverityInternet pr = "none" ∧ pr ≠ "443")) := by
  by_cases h1 : pr = "22"
  · subst h1; exact ⟨by decide, by decide⟩
  by_cases h2 : pr = "3389"
  · subst h2; exact ⟨by decide, by decide⟩
  by_cases h3 : pr = "3306"
  · subst h3; exact ⟨by decide, by decide⟩
  by_cases h4 : pr = "5432"
  · subst h4; exact ⟨by decide, by decide⟩
  by_cases h5 : pr = "1521"
  · subst h5; exact ⟨by decide, by decide⟩
  by_cases h6 : pr = "27017"
  · subst h6; exact ⟨by decide, by decide⟩
  by_cases h7 : pr = "6379"
  · subst h7; exact ⟨by decide, by decide⟩
  by_cases h8 : pr = "5984"
  · subst h8; exact ⟨by decide, by decide⟩
  by_cases h9 : pr = "9200"
  · subst h9; exact ⟨by decide, by decide⟩
  by_cases h10 : pr = "9300"
  · subst h10; exact ⟨by decide, by decide⟩
  by_cases h11 : pr = "0-65535"
  · subst h11; exact ⟨by decide, by decide⟩
  by_cases h12 : pr = "All"
  · subst h12; exact ⟨by decide, by decide⟩
  by_cases h13 : pr = "23"
  · subst h13; exact ⟨by decide, by decide⟩
  by_cases h14 : pr = "445"
  · subst h14; exact ⟨by decide, by decide⟩
  by_cases h15 : pr = "139"
  · subst h15; exact ⟨by decide, by decide⟩
  by_cases h16 : pr = "21"
  · subst h16; exact ⟨by decide, by decide⟩
  by_cases h17 : pr = "25"
  · subst h17; exact ⟨by decide, by decide⟩
  by_cases h18 : pr = "53"
  · subst h18; exact ⟨by decide, by decide⟩
  by_cases h19 : pr = "135"
  · subst h19; exact ⟨by decide, by decide⟩
  by_cases h20 : pr = "137"
  · subst h20; exact ⟨by decide, by decide⟩
  by_cases h21 : pr = "138"
  · subst h21; exact ⟨by decide, by decide⟩
  by_cases h22 : pr = "8080"
  · subst h22; exact ⟨by decide, by decide⟩
  by_cases h23 : pr = "8000"
  · subst h23; exact ⟨by decide, by decide⟩
  by_cases h24 : pr = "8443"
  · subst h24; exact ⟨by decide, by decide⟩
  by_cases h25 : pr = "8888"
  · subst h25; exact ⟨by decide, by decide⟩
  by_cases h26 : pr = "9090"
  · subst h26; exact ⟨by decide, by decide⟩
  by_cases h27 : pr = "9091"
  · subst h27; exact ⟨by decide, by decide⟩
  by_cases h28 : pr = "5000"
  · subst h28; exact ⟨by decide, by decide⟩
  by_cases h29 : pr = "80"
  · subst h29; exact ⟨by decide, by decide⟩
  by_cases h30 : pr = "443"
  · subst h30; exact ⟨by decide, by decide⟩
  constructor
  · simp [internetRisk, specSeverityInternet, h1, h2, h3, h4, h5, h6, h7, h8, h9, h10, h11, h12, h13, h14, h15, h16, h17, h18, h19, h20, h21, h22, h23, h24, h25, h26, h27, h28, h29, h30]
  · simp [internetRisk, specSeverityInternet, h1, h2, h3, h4, h5, h6, h7, h8, h9, h10, h11, h12, h13, h14, h15, h16, h17, h18, h19, h20, h21, h22, h23, h24, h25, h26, h27, h28, h29, h30]

/-- The spec's Internet severity table only produces the five known
levels. -/
theorem specSeverityInternet_mem (pr : String) :
    specSeverityInternet pr ∈ ["critical", "high", "medium", "low", "none"] := by
  unfold specSeverityInternet
  split_ifs <;> simp

/-- The Internet-exposure branch only produces the five known levels. -/
theorem internetRisk_level_mem (pr : String) :
    (internetRisk pr).level ∈ ["critical", "high", "medium", "low", "none"] := by
  rw [(internetRisk_matches_table pr).1]
  exact specSeverityInternet_mem pr

/-- The private-source fallback branch only produces levels `medium` or
`none`. -/
theorem privateFallbackRisk_level_mem (pr : String) :
    (privateFallbackRisk pr).level ∈ ["critical", "high", "medium", "low", "none"] := by
  unfold privateFallbackRisk
  split_ifs <;> simp

/-- On a rule with all required fields present, classification succeeds
and yields exactly the level and reason read back by `ruleLevel` and
`ruleReason`. -/
theorem analyze_inbound_eq (r : Rule) (h : wfRule r = true) :
    analyze_security_risk r "inbound" = Except.ok ⟨ruleLevel r, ruleReason r⟩ := by
  obtain ⟨n, a, p, c, pr⟩ := r
  rcases a with _ | a
  · simp [wfRule] at h
  rcases p with _ | p
  · simp [wfRule] at h
  rcases c with _ | c
  · simp [wfRule] at h
  simp only [ruleLevel, ruleReason, analyze_security_risk]

/-- On a rule with all required fields present, classification never
raises: it returns some verdict. -/
theorem analyze_ok_of_wf (r : Rule) (d : String) (h : wfRule r = true) :
    ∃ risk, analyze_security_risk r d = Except.ok risk := by
  obtain ⟨n, a, p, c, pr⟩ := r
  rcases a with _ | a
  · simp [wfRule] at h
  rcases p with _ | p
  · simp [wfRule] at h
  rcases c with _ | c
  · simp [wfRule] at h
  exact ⟨_, rfl⟩

/-- On a rule missing a required field, classification raises. -/
theorem analyze_error_of_not_wf (r : Rule) (d : String) (h : wfRule r = false) :
    ∃ e, analyze_security_risk r d = Except.error e := by
  obtain ⟨n, a, p, c, pr⟩ := r
  rcases a with _ | a
  · exact ⟨_, rfl⟩
  rcases p with _ | p
  · exact ⟨_, rfl⟩
  rcases c with _ | c
  · exact ⟨_, rfl⟩
  simp [wfRule] at h

/-- A well-formed rule's inbound level is one of the five known levels. -/
theorem ruleLevel_mem (r : Rule) (h : wfRule r = true) :
    ruleLevel r ∈ ["critical", "high", "medium", "low", "none"] := by
  obtain ⟨n, a, p, c, pr⟩ := r
  rcases a with _ | a
  · simp [wfRule] at h
  rcases p with _ | p
  · simp [wfRule] at h
  rcases c with _ | c
  · simp [wfRule] at h
  simp only [ruleLevel, analyze_security_risk]
  split_ifs
  · exact internetRisk_level_mem _
  · exact privateFallbackRisk_level_mem _
  · simp

/-- C1: for every rule with `action == allow` classified with
`direction == inbound` and `cidr == "0.0.0.0/0"`, classification assigns
severity by exact string match on `port_range` according to the fixed
table `specSeverityInternet` (critical / high / medium / low / none),
with a non-empty reassuring reason exactly for port 443 among the
`none`-level ports and an empty reason for every other unmatched port. -/
theorem c1_internet_port_severity_table (n : Int) (prot pr : String) :
    ruleLevel ⟨n, some "allow", some prot, some "0.0.0.0/0", some pr⟩ = specSeverityInternet pr ∧
    (ruleReason ⟨n, some "allow", some prot, some "0.0.0.0/0", some pr⟩ = "" ↔
      (specSeverityInternet pr = "none" ∧ pr ≠ "443")) := by
  have h : analyze_security_risk ⟨n, some "allow", some prot, some "0.0.0.0/0", some pr⟩ "inbound"
      = Except.ok (internetRisk pr) := by
    simp [analyze_security_risk]
  constructor
  · simp only [ruleLevel, h]
    exact (internetRisk_matches_table pr).1
  · simp only [ruleReason, h]
    exact (internetRisk_matches_table pr).2

/-- C3: for every rule with its required fields present and every
direction, if the action is not `allow` or the direction is not
`inbound`, classification returns the `none` verdict with empty reason:
deny rules and outbound rules are never flagged. -/
theorem c3_deny_or_outbound_never_flagged (r : Rule) (d : String)
    (hwf : wfRule r = true)
    (h : r.action ≠ some "allow" ∨ d ≠ "inbound") :
    analyze_security_risk r d = Except.ok ⟨"none", ""⟩ := by
  obtain ⟨n, a, p, c, pr⟩ := r
  rcases a with _ | a
  · simp [wfRule] at hwf
  rcases p with _ | p
  · simp [wfRule] at hwf
  rcases c with _ | c
  · simp [wfRule] at hwf
  have h1 : ¬(a = "allow" ∧ d = "inbound" ∧ c = "0.0.0.0/0") := by
    rintro ⟨rfl, rfl, -⟩
    rcases h with h | h <;> simp at h
  have h2 : ¬(a = "allow" ∧ d = "inbound") := by
    rintro ⟨rfl, rfl⟩
    rcases h with h | h <;> simp at h
  simp only [analyze_security_risk]
  rw [if_neg h1, if_neg h2]

/-- Witness for C3 at a concrete deny rule. -/
theorem c3_deny_or_outbound_never_flagged_witness :
    analyze_security_risk ⟨100, some "deny", some "tcp", some "0.0.0.0/0", some "22"⟩ "inbound"
      = Except.ok ⟨"none", ""⟩ :=
  c3_deny_or_outbound_never_flagged ⟨100, some "deny", some "tcp", some "0.0.0.0/0", some "22"⟩
    "inbound" (by decide) (Or.inl (by decide))

/-- C4: for every inbound allow rule whose source CIDR is not
`0.0.0.0/0`, classification takes the private-source fallback branch:
level `medium` exactly when `port_range` is `0-65535` or `All`, level
`none` otherwise, and in every case strictly lower than the `critical`
assigned to the same any-port exposure from the public Internet. -/
theorem c4_private_source_any_port_medium (n : Int) (prot cidr pr : String)
    (h : cidr ≠ "0.0.0.0/0") :
    analyze_security_risk ⟨n, some "allow", some prot, some cidr, some pr⟩ "inbound"
      = Except.ok (privateFallbackRisk pr) ∧
    (privateFallbackRisk pr).level = (if pr = "0-65535" ∨ pr = "All" then "medium" else "none") ∧
    levelRank (privateFallbackRisk pr).level < levelRank "critical" := by
  refine ⟨?_, ?_, ?_⟩
  · simp [analyze_security_risk, h]
  · unfold privateFallbackRisk
    split_ifs <;> rfl
  · unfold privateFallbackRisk
    by_cases hc : pr = "0-65535" ∨ pr = "All"
    · rw [if_pos hc]; decide
    · rw [if_neg hc]; decide

/-- Witness for C4 at a concrete private-source any-port rule. -/
theorem c4_private_source_any_port_medium_witness :
    analyze_security_risk ⟨200, some "allow", some "tcp", some "10.0.0.0/16", some "0-65535"⟩ "inbound"
      = Except.ok (privateFallbackRisk "0-65535") ∧
    (privateFallbackRisk "0-65535").level =
      (if "0-65535" = "0-65535" ∨ "0-65535" = "All" then "medium" else "none") ∧
    levelRank (privateFallbackRisk "0-65535").level < levelRank "critical" :=
  c4_private_source_any_port_medium 200 "tcp" "10.0.0.0/16" "0-65535" (by decide)

/-- C10: a rule without a `port_range` field is not an error —
classification treats it exactly as `port_range == "All"`; hence an
inbound allow rule from `0.0.0.0/0` with no `port_range` is `critical`
(any-port exposure) and from any other source it is `medium`. -/
theorem c10_missing_port_range_means_all :
    (∀ (r : Rule) (d : String),
        analyze_security_risk { r with port_range := none } d =
          analyze_security_risk { r with port_range := some "All" } d) ∧
    (∀ (n : Int) (prot : String),
        ruleLevel ⟨n, some "allow", some prot, some "0.0.0.0/0", none⟩ = "critical") ∧
    (∀ (n : Int) (prot cidr : String), cidr ≠ "0.0.0.0/0" →
        ruleLevel ⟨n, some "allow", some prot, some cidr, none⟩ = "medium") := by
  refine ⟨?_, ?_, ?_⟩
  · intro r d
    obtain ⟨num, a, p, c, pr⟩ := r
    rcases a with _ | a
    · rfl
    rcases p with _ | p
    · rfl
    rcases c with _ | c
    · rfl
    simp [analyze_security_risk]
  · intro n prot
    simp [ruleLevel, analyze_security_risk]
    decide
  · intro n prot cidr h
    simp [ruleLevel, analyze_security_risk, h, privateFallbackRisk]

/-- Witness for C10 at concrete rules without a `port_range` field. -/
theorem c10_missing_port_range_means_all_witness :
    analyze_security_risk
        { (⟨1, some "allow", some "tcp", some "0.0.0.0/0", none⟩ : Rule) with port_range := none }
        "inbound"
      = analyze_security_risk
        { (⟨1, some "allow", some "tcp", some "0.0.0.0/0", none⟩ : Rule) with port_range := some "All" }
        "inbound" ∧
    ruleLevel ⟨1, some "allow", some "tcp", some "0.0.0.0/0", none⟩ = "critical" ∧
    "10.0.0.0/16" ≠ "0.0.0.0/0" ∧
    ruleLevel ⟨2, some "allow", some "tcp", some "10.0.0.0/16", none⟩ = "medium" :=
  ⟨c10_missing_port_range_means_all.1 ⟨1, some "allow", some "tcp", some "0.0.0.0/0", none⟩ "inbound",
   c10_missing_port_range_means_all.2.1 1 "tcp",
   by decide,
   c10_missing_port_range_means_all.2.2 2 "tcp" "10.0.0.0/16" (by decide)⟩

/-- Unfolding of `bucketOf` on a cons cell. -/
theorem bucketOf_cons (r : Rule) (rest : List Rule) (lvl : String) :
    bucketOf (r :: rest) lvl =
      (if r.rule_number < 32767 ∧ ruleLevel r = lvl then [⟨r.rule_number, ruleReason r, r⟩] else [])
        ++ bucketOf rest lvl := by
  simp only [bucketOf, List.filter_cons]
  by_cases h1 : r.rule_number < 32767
  · by_cases h2 : ruleLevel r = lvl
    · simp [h1, h2]
    · simp [h1, h2]
  · simp [h1]

/-- The scoring loop, on well-formed rules, produces exactly the
`bucketOf` buckets appended to the accumulator. -/
theorem scoreRules_ok (rules : List Rule) :
    ∀ acc : Risks, (∀ r ∈ rules, wfRule r = true) →
      scoreRules rules acc = Except.ok
        ⟨acc.critical ++ bucketOf rules "critical",
         acc.high ++ bucketOf rules "high",
         acc.medium ++ bucketOf rules "medium",
         acc.low ++ bucketOf rules "low"⟩ := by
  induction rules with
  | nil => intro acc _; simp [scoreRules, bucketOf]
  | cons r rest ih =>
    intro acc hwf
    have hr : wfRule r = true := hwf r (by simp)
    have hrest : ∀ x ∈ rest, wfRule x = true := fun x hx => hwf x (by simp [hx])
    by_cases hn : r.rule_number < 32767
    · simp only [scoreRules, if_pos hn, analyze_inbound_eq r hr]
      have hmem := ruleLevel_mem r hr
      simp only [List.mem_cons, List.not_mem_nil, or_false] at hmem
      rcases hmem with hL | hL | hL | hL | hL <;>
        simp [hL, ih _ hrest, bucketOf_cons, hn, List.append_assoc]
    · simp only [scoreRules, if_neg hn]
      rw [ih _ hrest]
      have hb : ∀ lvl, bucketOf (r :: rest) lvl = bucketOf rest lvl := by
        intro lvl
        rw [bucketOf_cons]
        simp [hn]
      simp [hb]

/-- On well-formed inbound rules, `_calculate_subnet_security_score`
succeeds, with buckets exactly `bucketOf`, `overall` the highest
non-empty bucket, and `total_issues` the sum of the bucket lengths. -/
theorem calc_score_ok (info : NaclInfo)
    (hwf : ∀ r ∈ info.inbound_rules, wfRule r = true) :
    calculate_subnet_security_score info = Except.ok
      ⟨(if (bucketOf info.inbound_rules "critical").length > 0 then "critical"
        else if (bucketOf info.inbound_rules "high").length > 0 then "high"
        else if (bucketOf info.inbound_rules "medium").length > 0 then "medium"
        else if (bucketOf info.inbound_rules "low").length > 0 then "low"
        else "secure"),
       ⟨bucketOf info.inbound_rules "critical", bucketOf info.inbound_rules "high",
        bucketOf info.inbound_rules "medium", bucketOf info.inbound_rules "low"⟩,
       (bucketOf info.inbound_rules "critical").length + (bucketOf info.inbound_rules "high").length +
         (bucketOf info.inbound_rules "medium").length + (bucketOf info.inbound_rules "low").length⟩ := by
  simp only [calculate_subnet_security_score, scoreRules_ok info.inbound_rules ⟨[], [], [], []⟩ hwf,
    List.nil_append]

/-- The highest-non-empty-bucket chain agrees with `rank4` through
`levelRank`, and returns `secure` exactly when all four buckets are
empty. -/
theorem levelRank_chain {α β γ δ : Type} (c : List α) (h : List β) (md : List γ) (l : List δ) :
    levelRank (if c.length > 0 then "critical"
        else if h.length > 0 then "high"
        else if md.length > 0 then "medium"
        else if l.length > 0 then "low"
        else "secure") = rank4 c h md l ∧
    ((if c.length > 0 then "critical"
        else if h.length > 0 then "high"
        else if md.length > 0 then "medium"
        else if l.length > 0 then "low"
        else "secure") = "secure" ↔ (c = [] ∧ h = [] ∧ md = [] ∧ l = [])) := by
  rcases c with _ | ⟨x, c⟩ <;> rcases h with _ | ⟨y, h⟩ <;> rcases md with _ | ⟨z, md⟩ <;>
    rcases l with _ | ⟨w, l⟩ <;> simp [levelRank, rank4]

/-- C5: for every NACL binding whose inbound rules have their required
fields, the scorer buckets exactly the non-`none` verdicts of the
non-reserved rules (the `bucketOf` characterization; `none`-level
verdicts are never added), sets `overall` to the highest severity with a
non-empty bucket under critical > high > medium > low (`secure` exactly
when all buckets are empty), and sets `total_issues` to the sum of the
four bucket lengths. -/
theorem c5_subnet_score_buckets (info : NaclInfo)
    (hwf : ∀ r ∈ info.inbound_rules, wfRule r = true) :
    ∃ sc, calculate_subnet_security_score info = Except.ok sc ∧
      sc.risks.critical = bucketOf info.inbound_rules "critical" ∧
      sc.risks.high = bucketOf info.inbound_rules "high" ∧
      sc.risks.medium = bucketOf info.inbound_rules "medium" ∧
      sc.risks.low = bucketOf info.inbound_rules "low" ∧
      levelRank sc.overall = rank4 sc.risks.critical sc.risks.high sc.risks.medium sc.risks.low ∧
      (sc.overall = "secure" ↔
        sc.risks.critical = [] ∧ sc.risks.high = [] ∧ sc.risks.medium = [] ∧ sc.risks.low = []) ∧
      sc.total_issues = sc.risks.critical.length + sc.risks.high.length +
        sc.risks.medium.length + sc.risks.low.length :=
  ⟨_, calc_score_ok info hwf, rfl, rfl, rfl, rfl,
    (levelRank_chain _ _ _ _).1, (levelRank_chain _ _ _ _).2, rfl⟩

/-- Witness for C5 at a one-rule binding exposing SSH to the Internet. -/
theorem c5_subnet_score_buckets_witness :
    ∃ sc, calculate_subnet_security_score
        ⟨"acl-1", "web-acl", false, [⟨100, some "allow", some "tcp", some "0.0.0.0/0", some "22"⟩], []⟩
        = Except.ok sc ∧
      sc.risks.critical =
        bucketOf [⟨100, some "allow", some "tcp", some "0.0.0.0/0", some "22"⟩] "critical" ∧
      sc.risks.high =
        bucketOf [⟨100, some "allow", some "tcp", some "0.0.0.0/0", some "22"⟩] "high" ∧
      sc.risks.medium =
        bucketOf [⟨100, some "allow", some "tcp", some "0.0.0.0/0", some "22"⟩] "medium" ∧
      sc.risks.low =
        bucketOf [⟨100, some "allow", some "tcp", some "0.0.0.0/0", some "22"⟩] "low" ∧
      levelRank sc.overall = rank4 sc.risks.critical sc.risks.high sc.risks.medium sc.risks.low ∧
      (sc.overall = "secure" ↔
        sc.risks.critical = [] ∧ sc.risks.high = [] ∧ sc.risks.medium = [] ∧ sc.risks.low = []) ∧
      sc.total_issues = sc.risks.critical.length + sc.risks.high.length +
        sc.risks.medium.length + sc.risks.low.length :=
  c5_subnet_score_buckets
    ⟨"acl-1", "web-acl", false, [⟨100, some "allow", some "tcp", some "0.0.0.0/0", some "22"⟩], []⟩
    (by decide)

/-- Rules at or above the reserved number are never classified: the
scoring loop ignores them entirely. -/
theorem scoreRules_skip_all (rules : List Rule) :
    ∀ acc, (∀ r ∈ rules, ¬(r.rule_number < 32767)) → scoreRules rules acc = Except.ok acc := by
  induction rules with
  | nil => intro acc _; rfl
  | cons r rest ih =>
    intro acc h
    have hr : ¬(r.rule_number < 32767) := h r (by simp)
    simp only [scoreRules, if_neg hr]
    exact ih acc fun x hx => h x (by simp [hx])

/-- Removing a rule with a reserved (not `< 32767`) number anywhere in
the scored list does not change the scoring loop's result. -/
theorem scoreRules_remove_reserved (r : Rule) (hr : ¬(r.rule_number < 32767)) (pre post : List Rule) :
    ∀ acc, scoreRules (pre ++ r :: post) acc = scoreRules (pre ++ post) acc := by
  induction pre with
  | nil => intro acc; simp only [List.nil_append, scoreRules, if_neg hr]
  | cons p pre ih =>
    intro acc
    simp only [List.cons_append, scoreRules]
    by_cases hp : p.rule_number < 32767
    · simp only [if_pos hp]
      cases hA : analyze_security_risk p "inbound" with
      | error e => rfl
      | ok risk => exact ih _
    · simp only [if_neg hp]
      exact ih _

/-- C7: a rule with the reserved number 32767 never contributes to the
subnet score — removing it leaves the score unchanged, an all-reserved
(or empty) binding scores `secure` with zero issues — and the subnet
card never displays it. -/
theorem c7_reserved_rule_never_counted :
    (∀ (info : NaclInfo) (pre post : List Rule) (r : Rule), r.rule_number = 32767 →
        calculate_subnet_security_score
            ⟨info.nacl_id, info.nacl_name, info.is_default, pre ++ r :: post, info.outbound_rules⟩
          = calculate_subnet_security_score
            ⟨info.nacl_id, info.nacl_name, info.is_default, pre ++ post, info.outbound_rules⟩) ∧
    (∀ (info : NaclInfo) (r : Rule), r ∈ subnet_card_displayed_inbound info →
        r.rule_number ≠ 32767) ∧
    (∀ info : NaclInfo,
        (info.inbound_rules = [] ∨ ∀ r ∈ info.inbound_rules, r.rule_number = 32767) →
        calculate_subnet_security_score info = Except.ok ⟨"secure", ⟨[], [], [], []⟩, 0⟩) := by
  refine ⟨?_, ?_, ?_⟩
  · intro info pre post r hr
    have hr' : ¬(r.rule_number < 32767) := by omega
    simp only [calculate_subnet_security_score]
    rw [scoreRules_remove_reserved r hr' pre post]
  · intro info r hm
    have h := List.of_mem_filter hm
    simp only [decide_eq_true_eq] at h
    omega
  · intro info h
    have hall : ∀ r ∈ info.inbound_rules, ¬(r.rule_number < 32767) := by
      rcases h with h | h
      · intro r hr; rw [h] at hr; simp at hr
      · intro r hr; have := h r hr; omega
    simp only [calculate_subnet_security_score, scoreRules_skip_all info.inbound_rules _ hall]
    rfl

/-- Witness for C7: concrete applications of all three parts at explicit
bindings and rules. -/
theorem c7_reserved_rule_never_counted_witness :
    calculate_subnet_security_score
        ⟨"acl-1", "n", false,
         [] ++ (⟨32767, some "deny", some "tcp", some "0.0.0.0/0", none⟩ : Rule) :: [], []⟩
      = calculate_subnet_security_score ⟨"acl-1", "n", false, [] ++ [], []⟩ ∧
    (⟨100, some "allow", some "tcp", some "0.0.0.0/0", some "22"⟩ : Rule).rule_number ≠ 32767 ∧
    calculate_subnet_security_score
        ⟨"acl-2", "n", false, [⟨32767, some "deny", some "tcp", some "0.0.0.0/0", none⟩], []⟩
      = Except.ok ⟨"secure", ⟨[], [], [], []⟩, 0⟩ := by
  refine ⟨?_, ?_, ?_⟩
  · exact c7_reserved_rule_never_counted.1 ⟨"acl-1", "n", false, [], []⟩ [] []
      ⟨32767, some "deny", some "tcp", some "0.0.0.0/0", none⟩ rfl
  · exact c7_reserved_rule_never_counted.2.1
      ⟨"acl-3", "n", false, [⟨100, some "allow", some "tcp", some "0.0.0.0/0", some "22"⟩], []⟩
      ⟨100, some "allow", some "tcp", some "0.0.0.0/0", some "22"⟩ (by decide)
  · exact c7_reserved_rule_never_counted.2.2
      ⟨"acl-2", "n", false, [⟨32767, some "deny", some "tcp", some "0.0.0.0/0", none⟩], []⟩
      (Or.inr (by decide))

/-- A scored (non-reserved) rule missing a required field aborts the
scoring loop with an error. -/
theorem scoreRules_error (rules : List Rule) :
    ∀ acc, (∃ r, r ∈ rules ∧ r.rule_number < 32767 ∧ wfRule r = false) →
      ∃ e, scoreRules rules acc = Except.error e := by
  induction rules with
  | nil =>
    intro acc h
    obtain ⟨r, hr, -, -⟩ := h
    simp at hr
  | cons r rest ih =>
    intro acc h
    by_cases hn : r.rule_number < 32767
    · cases hw : wfRule r with
      | false =>
        obtain ⟨e, he⟩ := analyze_error_of_not_wf r "inbound" hw
        exact ⟨e, by simp only [scoreRules, if_pos hn, he]⟩
      | true =>
        obtain ⟨x, hx, hx1, hx2⟩ := h
        rcases List.mem_cons.mp hx with rfl | hx'
        · rw [hw] at hx2; cases hx2
        · obtain ⟨risk, hrisk⟩ := analyze_ok_of_wf r "inbound" hw
          simp only [scoreRules, if_pos hn, hrisk]
          exact ih _ ⟨x, hx', hx1, hx2⟩
    · obtain ⟨x, hx, hx1, hx2⟩ := h
      rcases List.mem_cons.mp hx with rfl | hx'
      · exact absurd hx1 hn
      · simp only [scoreRules, if_neg hn]
        exact ih _ ⟨x, hx', hx1, hx2⟩

/-- A binding containing a scored rule with a missing required field
makes the whole subnet score an error. -/
theorem calc_score_error (info : NaclInfo) (r : Rule) (hm : r ∈ info.inbound_rules)
    (hn : r.rule_number < 32767) (hw : wfRule r = false) :
    ∃ e, calculate_subnet_security_score info = Except.error e := by
  obtain ⟨e, he⟩ := scoreRules_error info.inbound_rules ⟨[], [], [], []⟩ ⟨r, hm, hn, hw⟩
  exact ⟨e, by simp only [calculate_subnet_security_score, he]⟩

/-- A bound subnet whose score errors makes the whole VPC aggregation
loop error. -/
theorem vpcAllRisks_error (subnets : List Subnet) :
    ∀ (m : NaclMap) (acc : VRisks) (s : Subnet) (info : NaclInfo),
      s ∈ subnets → m s.subnet_id = some info →
      (∃ e, calculate_subnet_security_score info = Except.error e) →
      ∃ e, vpcAllRisks subnets m acc = Except.error e := by
  induction subnets with
  | nil =>
    intro m acc s info hs
    simp at hs
  | cons s0 rest ih =>
    intro m acc s info hs hminfo hcalc
    rcases List.mem_cons.mp hs with rfl | hs'
    · obtain ⟨e, he⟩ := hcalc
      exact ⟨e, by simp only [vpcAllRisks, hminfo, he]⟩
    · cases hm0 : m s0.subnet_id with
      | none =>
        simp only [vpcAllRisks, hm0]
        exact ih m acc s info hs' hminfo hcalc
      | some info0 =>
        cases hc0 : calculate_subnet_security_score info0 with
        | error e => exact ⟨e, by simp only [vpcAllRisks, hm0, hc0]⟩
        | ok sc =>
          simp only [vpcAllRisks, hm0, hc0]
          exact ih m _ s info hs' hminfo hcalc

/-- C9: classifying a rule missing the required `action` field (likewise
`protocol` or `cidr`) raises the corresponding `KeyError`, and that error
propagates unhandled through the subnet scorer and the VPC security
summary — the report run fails rather than producing a partial or default
verdict. -/
theorem c9_missing_required_field_fatal :
    (∀ (r : Rule) (d : String), r.action = none →
        analyze_security_risk r d = Except.error "KeyError: action") ∧
    (∀ (r : Rule) (d : String), r.action.isSome → r.protocol = none →
        analyze_security_risk r d = Except.error "KeyError: protocol") ∧
    (∀ (r : Rule) (d : String), r.action.isSome → r.protocol.isSome → r.cidr = none →
        analyze_security_risk r d = Except.error "KeyError: cidr") ∧
    (∀ (info : NaclInfo) (r : Rule), r ∈ info.inbound_rules → r.rule_number < 32767 →
        wfRule r = false → ∃ e, calculate_subnet_security_score info = Except.error e) ∧
    (∀ (subnets : List Subnet) (m : NaclMap) (s : Subnet) (info : NaclInfo) (r : Rule),
        s ∈ subnets → m s.subnet_id = some info → r ∈ info.inbound_rules →
        r.rule_number < 32767 → wfRule r = false →
        ∃ e, generate_vpc_security_summary subnets m = Except.error e) := by
  refine ⟨?_, ?_, ?_, ?_, ?_⟩
  · intro r d h
    obtain ⟨n, a, p, c, pr⟩ := r
    cases h
    rfl
  · intro r d ha h
    obtain ⟨n, a, p, c, pr⟩ := r
    cases h
    rcases a with _ | a
    · cases ha
    · rfl
  · intro r d ha hp h
    obtain ⟨n, a, p, c, pr⟩ := r
    cases h
    rcases a with _ | a
    · cases ha
    rcases p with _ | p
    · cases hp
    rfl
  · exact fun info r hm hn hw => calc_score_error info r hm hn hw
  · intro subnets m s info r hs hminfo hm hn hw
    obtain ⟨e, he⟩ :=
      vpcAllRisks_error subnets m ⟨[], [], [], []⟩ s info hs hminfo
        (calc_score_error info r hm hn hw)
    exact ⟨e, by simp only [generate_vpc_security_summary, he]⟩

/-- Witness for C9: a rule with no `action`, a binding containing it, and
a one-subnet VPC whose summary fails on it. -/
theorem c9_missing_required_field_fatal_witness :
    analyze_security_risk ⟨1, none, some "tcp", some "0.0.0.0/0", none⟩ "inbound"
      = Except.error "KeyError: action" ∧
    analyze_security_risk ⟨1, some "allow", none, some "0.0.0.0/0", none⟩ "inbound"
      = Except.error "KeyError: protocol" ∧
    analyze_security_risk ⟨1, some "allow", some "tcp", none, none⟩ "inbound"
      = Except.error "KeyError: cidr" ∧
    (∃ e, calculate_subnet_security_score
        ⟨"acl-1", "n", false, [⟨1, none, some "tcp", some "0.0.0.0/0", none⟩], []⟩
      = Except.error e) ∧
    (∃ e, generate_vpc_security_summary [⟨"subnet-1", some "web"⟩]
        (fun k => if k = "subnet-1" then
            some ⟨"acl-1", "n", false, [⟨1, none, some "tcp", some "0.0.0.0/0", none⟩], []⟩
          else none)
      = Except.error e) := by
  refine ⟨?_, ?_, ?_, ?_, ?_⟩
  · exact c9_missing_required_field_fatal.1 ⟨1, none, some "tcp", some "0.0.0.0/0", none⟩
      "inbound" rfl
  · exact c9_missing_required_field_fatal.2.1 ⟨1, some "allow", none, some "0.0.0.0/0", none⟩
      "inbound" (by decide) rfl
  · exact c9_missing_required_field_fatal.2.2.1 ⟨1, some "allow", some "tcp", none, none⟩
      "inbound" (by decide) (by decide) rfl
  · exact c9_missing_required_field_fatal.2.2.2.1
      ⟨"acl-1", "n", false, [⟨1, none, some "tcp", some "0.0.0.0/0", none⟩], []⟩
      ⟨1, none, some "tcp", some "0.0.0.0/0", none⟩ (by simp) (by decide) (by decide)
  · exact c9_missing_required_field_fatal.2.2.2.2 [⟨"subnet-1", some "web"⟩]
      (fun k => if k = "subnet-1" then
          some ⟨"acl-1", "n", false, [⟨1, none, some "tcp", some "0.0.0.0/0", none⟩], []⟩
        else none)
      ⟨"subnet-1", some "web"⟩
      ⟨"acl-1", "n", false, [⟨1, none, some "tcp", some "0.0.0.0/0", none⟩], []⟩
      ⟨1, none, some "tcp", some "0.0.0.0/0", none⟩
      (by simp) (by simp) (by simp) (by decide) (by decide)

/-- The VPC aggregation loop, when every bound subnet's rules are
well-formed, produces exactly the `vpcBucket` buckets appended to the
accumulator. -/
theorem vpcAllRisks_ok (subnets : List Subnet) :
    ∀ (m : NaclMap) (acc : VRisks),
      (∀ s ∈ subnets, ∀ info, m s.subnet_id = some info →
        ∀ r ∈ info.inbound_rules, wfRule r = true) →
      vpcAllRisks subnets m acc = Except.ok
        ⟨acc.critical ++ vpcBucket m "critical" subnets,
         acc.high ++ vpcBucket m "high" subnets,
         acc.medium ++ vpcBucket m "medium" subnets,
         acc.low ++ vpcBucket m "low" subnets⟩ := by
  induction subnets with
  | nil => intro m acc _; simp [vpcAllRisks, vpcBucket]
  | cons s rest ih =>
    intro m acc hwf
    have hrest : ∀ x ∈ rest, ∀ info, m x.subnet_id = some info →
        ∀ r ∈ info.inbound_rules, wfRule r = true :=
      fun x hx => hwf x (by simp [hx])
    cases hm : m s.subnet_id with
    | none =>
      simp only [vpcAllRisks, hm]
      rw [ih m acc hrest]
      simp [vpcBucket, hm]
    | some info =>
      have hwfi : ∀ r ∈ info.inbound_rules, wfRule r = true := hwf s (by simp) info hm
      simp only [vpcAllRisks, hm, calc_score_ok info hwfi]
      rw [ih m _ hrest]
      simp [vpcBucket, hm, List.append_assoc]

/-- Interleaving two maxima. -/
theorem max_interleave (a b c d : Nat) :
    max (max a b) (max c d) = max (max a c) (max b d) := by
  omega

/-- Appending bucket lists takes the maximum of the two `rank4`s. -/
theorem rank4_append {α β γ δ : Type} (c1 c2 : List α) (h1 h2 : List β) (m1 m2 : List γ)
    (l1 l2 : List δ) :
    rank4 (c1 ++ c2) (h1 ++ h2) (m1 ++ m2) (l1 ++ l2) =
      max (rank4 c1 h1 m1 l1) (rank4 c2 h2 m2 l2) := by
  have key : ∀ (k : Nat) (ε : Type) (a b : List ε),
      (if (a ++ b).isEmpty then 0 else k) =
        max (if a.isEmpty then 0 else k) (if b.isEmpty then 0 else k) := by
    intro k ε a b
    rcases a with _ | ⟨x, a⟩ <;> rcases b with _ | ⟨y, b⟩ <;> simp
  unfold rank4
  rw [key 4 α c1 c2, key 3 β h1 h2, key 2 γ m1 m2, key 1 δ l1 l2]
  rw [max_interleave (if m1.isEmpty then 0 else 2) (if m2.isEmpty then 0 else 2)
      (if l1.isEmpty then 0 else 1) (if l2.isEmpty then 0 else 1)]
  rw [max_interleave (if h1.isEmpty then 0 else 3) (if h2.isEmpty then 0 else 3)
      (max (if m1.isEmpty then 0 else 2) (if l1.isEmpty then 0 else 1))
      (max (if m2.isEmpty then 0 else 2) (if l2.isEmpty then 0 else 1))]
  rw [max_interleave (if c1.isEmpty then 0 else 4) (if c2.isEmpty then 0 else 4)]

/-- Tagging a subnet's items does not change the `rank4` of its buckets. -/
theorem rank4_tagItems (nm sid : String) (c h md l : List RiskItem) :
    rank4 (tagItems nm sid c) (tagItems nm sid h) (tagItems nm sid md) (tagItems nm sid l) =
      rank4 c h md l := by
  rcases c with _ | ⟨x, c⟩ <;> rcases h with _ | ⟨y, h⟩ <;> rcases md with _ | ⟨z, md⟩ <;>
    rcases l with _ | ⟨w, l⟩ <;> simp [rank4, tagItems]

/-- The `rank4` of the aggregated VPC buckets equals the maximum subnet
overall rank, on well-formed inputs. -/
theorem rank4_vpcBucket (subnets : List Subnet) :
    ∀ m : NaclMap,
      (∀ s ∈ subnets, ∀ info, m s.subnet_id = some info →
        ∀ r ∈ info.inbound_rules, wfRule r = true) →
      rank4 (vpcBucket m "critical" subnets) (vpcBucket m "high" subnets)
          (vpcBucket m "medium" subnets) (vpcBucket m "low" subnets) =
        maxOverallRank m subnets := by
  induction subnets with
  | nil => intro m _; simp [vpcBucket, maxOverallRank, rank4]
  | cons s rest ih =>
    intro m hwf
    have hrest : ∀ x ∈ rest, ∀ info, m x.subnet_id = some info →
        ∀ r ∈ info.inbound_rules, wfRule r = true :=
      fun x hx => hwf x (by simp [hx])
    simp only [vpcBucket, maxOverallRank]
    rw [rank4_append]
    rw [ih m hrest]
    congr 1
    cases hm : m s.subnet_id with
    | none => simp [subnetOverallRank, hm, rank4]
    | some info =>
      have hwfi : ∀ r ∈ info.inbound_rules, wfRule r = true := hwf s (by simp) info hm
      simp only [subnetOverallRank, hm, calc_score_ok info hwfi, rank4_tagItems]
      exact ((levelRank_chain _ _ _ _).1).symm

/-- The VPC summary's severity chain (no-issues box means `secure`,
otherwise highest non-empty bucket, defaulting to `low`) agrees with
`rank4` through `levelRank`. -/
theorem levelRank_vpcChain {α β γ δ : Type} (c : List α) (h : List β) (md : List γ) (l : List δ) :
    levelRank (if c.length + h.length + md.length + l.length = 0 then "secure"
      else if c.length > 0 then "critical"
      else if h.length > 0 then "high"
      else if md.length > 0 then "medium"
      else "low") = rank4 c h md l := by
  rcases c with _ | ⟨x, c⟩ <;> rcases h with _ | ⟨y, h⟩ <;> rcases md with _ | ⟨z, md⟩ <;>
    rcases l with _ | ⟨w, l⟩ <;> simp [levelRank, rank4]

/-- A bound subnet's bucket items appear, tagged, in the aggregated VPC
bucket of the same level. -/
theorem mem_vpcBucket (subnets : List Subnet) :
    ∀ (m : NaclMap) (lvl : String) (s : Subnet) (info : NaclInfo),
      s ∈ subnets → m s.subnet_id = some info →
      ∀ item ∈ bucketOf info.inbound_rules lvl,
        (⟨s.name.getD "N/A", s.subnet_id, item.rule_number, item.reason⟩ : VpcRiskItem) ∈
          vpcBucket m lvl subnets := by
  induction subnets with
  | nil => intro m lvl s info hs; simp at hs
  | cons s0 rest ih =>
    intro m lvl s info hs hm item hitem
    simp only [vpcBucket]
    rcases List.mem_cons.mp hs with rfl | hs'
    · apply List.mem_append_left
      rw [hm]
      simp only [tagItems]
      exact List.mem_map_of_mem _ hitem
    · apply List.mem_append_right
      exact ih m lvl s info hs' hm item hitem

/-- C6: for every VPC subnet list and NACL map with well-formed bound
rules, the VPC security summary succeeds; its overall severity equals
the maximum of the bound subnets' `overall` severities under
critical > high > medium > low > secure (via `levelRank` /
`maxOverallRank`); and every flagged issue of every bound subnet appears
in the summary's bucket of its severity level, tagged with the subnet's
display name, subnet id, rule number, and reason. -/
theorem c6_vpc_summary_max_and_attribution (subnets : List Subnet) (m : NaclMap)
    (hwf : ∀ s ∈ subnets, ∀ info, m s.subnet_id = some info →
      ∀ r ∈ info.inbound_rules, wfRule r = true) :
    ∃ sev ar, generate_vpc_security_summary subnets m = Except.ok (sev, ar) ∧
      levelRank sev = maxOverallRank m subnets ∧
      (∀ s ∈ subnets, ∀ info, m s.subnet_id = some info →
        ∀ sc, calculate_subnet_security_score info = Except.ok sc →
          (∀ item ∈ sc.risks.critical,
            (⟨s.name.getD "N/A", s.subnet_id, item.rule_number, item.reason⟩ : VpcRiskItem)
              ∈ ar.critical) ∧
          (∀ item ∈ sc.risks.high,
            (⟨s.name.getD "N/A", s.subnet_id, item.rule_number, item.reason⟩ : VpcRiskItem)
              ∈ ar.high) ∧
          (∀ item ∈ sc.risks.medium,
            (⟨s.name.getD "N/A", s.subnet_id, item.rule_number, item.reason⟩ : VpcRiskItem)
              ∈ ar.medium) ∧
          (∀ item ∈ sc.risks.low,
            (⟨s.name.getD "N/A", s.subnet_id, item.rule_number, item.reason⟩ : VpcRiskItem)
              ∈ ar.low)) := by
  have hv := vpcAllRisks_ok subnets m ⟨[], [], [], []⟩ hwf
  simp only [List.nil_append] at hv
  refine ⟨(if (vpcBucket m "critical" subnets).length + (vpcBucket m "high" subnets).length +
        (vpcBucket m "medium" subnets).length + (vpcBucket m "low" subnets).length = 0
      then "secure"
      else if (vpcBucket m "critical" subnets).length > 0 then "critical"
      else if (vpcBucket m "high" subnets).length > 0 then "high"
      else if (vpcBucket m "medium" subnets).length > 0 then "medium"
      else "low"),
    ⟨vpcBucket m "critical" subnets, vpcBucket m "high" subnets,
     vpcBucket m "medium" subnets, vpcBucket m "low" subnets⟩, ?_, ?_, ?_⟩
  · simp only [generate_vpc_security_summary, hv]
    split_ifs <;> rfl
  · rw [levelRank_vpcChain]
    exact rank4_vpcBucket subnets m hwf
  · intro s hs info hm sc hsc
    rw [calc_score_ok info (hwf s hs info hm)] at hsc
    injection hsc with hsc
    subst hsc
    exact ⟨fun item hitem => mem_vpcBucket subnets m "critical" s info hs hm item hitem,
      fun item hitem => mem_vpcBucket subnets m "high" s info hs hm item hitem,
      fun item hitem => mem_vpcBucket subnets m "medium" s info hs hm item hitem,
      fun item hitem => mem_vpcBucket subnets m "low" s info hs hm item hitem⟩

/-- Witness for C6: a one-subnet VPC whose subnet exposes SSH to the
Internet. -/
theorem c6_vpc_summary_max_and_attribution_witness :
    ∃ sev ar, generate_vpc_security_summary [⟨"subnet-1", some "web-public-1a"⟩]
        (fun k => if k = "subnet-1" then
            some ⟨"acl-1", "main", false,
              [⟨100, some "allow", some "tcp", some "0.0.0.0/0", some "22"⟩], []⟩
          else none) = Except.ok (sev, ar) ∧
      levelRank sev = maxOverallRank
        (fun k => if k = "subnet-1" then
            some ⟨"acl-1", "main", false,
              [⟨100, some "allow", some "tcp", some "0.0.0.0/0", some "22"⟩], []⟩
          else none) [⟨"subnet-1", some "web-public-1a"⟩] ∧
      (∀ s ∈ [(⟨"subnet-1", some "web-public-1a"⟩ : Subnet)], ∀ info,
        (fun k => if k = "subnet-1" then
            some ⟨"acl-1", "main", false,
              [⟨100, some "allow", some "tcp", some "0.0.0.0/0", some "22"⟩], []⟩
          else none) s.subnet_id = some info →
        ∀ sc, calculate_subnet_security_score info = Except.ok sc →
          (∀ item ∈ sc.risks.critical,
            (⟨s.name.getD "N/A", s.subnet_id, item.rule_number, item.reason⟩ : VpcRiskItem)
              ∈ ar.critical) ∧
          (∀ item ∈ sc.risks.high,
            (⟨s.name.getD "N/A", s.subnet_id, item.rule_number, item.reason⟩ : VpcRiskItem)
              ∈ ar.high) ∧
          (∀ item ∈ sc.risks.medium,
            (⟨s.name.getD "N/A", s.subnet_id, item.rule_number, item.reason⟩ : VpcRiskItem)
              ∈ ar.medium) ∧
          (∀ item ∈ sc.risks.low,
            (⟨s.name.getD "N/A", s.subnet_id, item.rule_number, item.reason⟩ : VpcRiskItem)
              ∈ ar.low)) :=
  c6_vpc_summary_max_and_attribution [⟨"subnet-1", some "web-public-1a"⟩]
    (fun k => if k = "subnet-1" then
        some ⟨"acl-1", "main", false,
          [⟨100, some "allow", some "tcp", some "0.0.0.0/0", some "22"⟩], []⟩
      else none)
    (by
      intro s hs info hm r hr
      simp only [List.mem_singleton] at hs
      subst hs
      simp only [List.mem_singleton] at hm
      simp at hm
      subst hm
      simp only [List.mem_singleton] at hr
      subst hr
      decide)

/-- The VPC aggregation loop skips a subnet with no NACL binding. -/
theorem vpcAllRisks_skip_unbound (pre : List Subnet) :
    ∀ (post : List Subnet) (s : Subnet) (m : NaclMap) (acc : VRisks),
      m s.subnet_id = none →
      vpcAllRisks (pre ++ s :: post) m acc = vpcAllRisks (pre ++ post) m acc := by
  induction pre with
  | nil => intro post s m acc h; simp only [List.nil_append, vpcAllRisks, h]
  | cons p pre ih =>
    intro post s m acc h
    simp only [List.cons_append, vpcAllRisks]
    cases hp : m p.subnet_id with
    | none =>
      dsimp only
      exact ih post s m acc h
    | some info =>
      dsimp only
      cases hc : calculate_subnet_security_score info with
      | error e => rfl
      | ok sc => exact ih post s m _ h

/-- C8: a subnet without a NACL binding contributes nothing to the VPC
security summary and causes no error: the summary over a subnet list
containing it is identical to the summary without it, so the remaining
subnets' issues are aggregated exactly as before. -/
theorem c8_unbound_subnet_harmless (pre post : List Subnet) (s : Subnet) (m : NaclMap)
    (h : m s.subnet_id = none) :
    generate_vpc_security_summary (pre ++ s :: post) m
      = generate_vpc_security_summary (pre ++ post) m := by
  simp only [generate_vpc_security_summary, vpcAllRisks_skip_unbound pre post s m _ h]

/-- Witness for C8: dropping an unbound subnet from a two-subnet VPC. -/
theorem c8_unbound_subnet_harmless_witness :
    generate_vpc_security_summary
        ([] ++ (⟨"subnet-0", none⟩ : Subnet) :: [⟨"subnet-2", some "db"⟩])
        (fun k => if k = "subnet-2" then
            some ⟨"acl-1", "main", false,
              [⟨100, some "allow", some "tcp", some "0.0.0.0/0", some "22"⟩], []⟩
          else none)
      = generate_vpc_security_summary ([] ++ [⟨"subnet-2", some "db"⟩])
        (fun k => if k = "subnet-2" then
            some ⟨"acl-1", "main", false,
              [⟨100, some "allow", some "tcp", some "0.0.0.0/0", some "22"⟩], []⟩
          else none) :=
  c8_unbound_subnet_harmless [] [⟨"subnet-2", some "db"⟩] ⟨"subnet-0", none⟩
    (fun k => if k = "subnet-2" then
        some ⟨"acl-1", "main", false,
          [⟨100, some "allow", some "tcp", some "0.0.0.0/0", some "22"⟩], []⟩
      else none)
    (by simp)

/-- C2: the 5-rule truncation in `_build_nacl_map` is not display-only —
it is applied to the map entry that `_calculate_subnet_security_score`
itself consumes.  At this concrete NACL with six inbound rules, the
binding built by `_build_nacl_map` keeps only the first five (benign
deny) rules and scores `secure` with zero issues, while scoring the full
untruncated rule set flags the sixth rule (SSH open to the Internet) as
`critical`. -/
theorem c2_truncation_hides_findings :
    (build_nacl_map [⟨"acl-1", some "main", some false, ["subnet-1"],
        [⟨100, some "deny", some "tcp", some "0.0.0.0/0", some "22"⟩,
         ⟨200, some "deny", some "tcp", some "0.0.0.0/0", some "23"⟩,
         ⟨300, some "deny", some "tcp", some "0.0.0.0/0", some "80"⟩,
         ⟨400, some "deny", some "tcp", some "0.0.0.0/0", some "443"⟩,
         ⟨500, some "deny", some "tcp", some "0.0.0.0/0", some "3389"⟩,
         ⟨600, some "allow", some "tcp", some "0.0.0.0/0", some "22"⟩], []⟩]) "subnet-1"
      = some ⟨"acl-1", "main", false,
          [⟨100, some "deny", some "tcp", some "0.0.0.0/0", some "22"⟩,
           ⟨200, some "deny", some "tcp", some "0.0.0.0/0", some "23"⟩,
           ⟨300, some "deny", some "tcp", some "0.0.0.0/0", some "80"⟩,
           ⟨400, some "deny", some "tcp", some "0.0.0.0/0", some "443"⟩,
           ⟨500, some "deny", some "tcp", some "0.0.0.0/0", some "3389"⟩], []⟩ ∧
    calculate_subnet_security_score ⟨"acl-1", "main", false,
        [⟨100, some "deny", some "tcp", some "0.0.0.0/0", some "22"⟩,
         ⟨200, some "deny", some "tcp", some "0.0.0.0/0", some "23"⟩,
         ⟨300, some "deny", some "tcp", some "0.0.0.0/0", some "80"⟩,
         ⟨400, some "deny", some "tcp", some "0.0.0.0/0", some "443"⟩,
         ⟨500, some "deny", some "tcp", some "0.0.0.0/0", some "3389"⟩], []⟩
      = Except.ok ⟨"secure", ⟨[], [], [], []⟩, 0⟩ ∧
    (∃ sc, calculate_subnet_security_score ⟨"acl-1", "main", false,
        [⟨100, some "deny", some "tcp", some "0.0.0.0/0", some "22"⟩,
         ⟨200, some "deny", some "tcp", some "0.0.0.0/0", some "23"⟩,
         ⟨300, some "deny", some "tcp", some "0.0.0.0/0", some "80"⟩,
         ⟨400, some "deny", some "tcp", some "0.0.0.0/0", some "443"⟩,
         ⟨500, some "deny", some "tcp", some "0.0.0.0/0", some "3389"⟩,
         ⟨600, some "allow", some "tcp", some "0.0.0.0/0", some "22"⟩], []⟩
        = Except.ok sc ∧ sc.overall = "critical" ∧ sc.total_issues = 1) := by
  refine ⟨by decide, rfl, ⟨_, rfl, rfl, rfl⟩⟩

/-- Witness for C1 at the SSH port. -/
theorem c1_internet_port_severity_table_witness :
    ruleLevel ⟨1, some "allow", some "tcp", some "0.0.0.0/0", some "22"⟩
      = specSeverityInternet "22" ∧
    (ruleReason ⟨1, some "allow", some "tcp", some "0.0.0.0/0", some "22"⟩ = "" ↔
      (specSeverityInternet "22" = "none" ∧ "22" ≠ "443")) :=
  c1_internet_port_severity_table 1 "tcp" "22"
